import Mathlib

/-!
Shallow embedding of the tutoring system in `src/main.py`.

Modelling conventions:
* Python `dict` (insertion ordered) becomes an association list `List (Nat × α)`;
  `d[k]` lookup is `alFind`, `d[k] = v` is `upsert` (replace in place, else append).
* The Python `set` of occupied slot keys becomes a duplicate-free `List String`.
* Python `float` prices/amounts are modelled as exact rationals `Rat` (all amounts
  appearing in the specification are exactly representable).
* Operations that `raise` are modelled as functions returning
  `Except Error α × SystemState`: the second component is the state of the store
  after the call, whether or not an exception escaped, mirroring the fact that the
  Python methods mutate `self` in place and the UI loop catches every exception.
* The backing JSON file is an explicit `db` field of the state; `save` overwrites
  it with the serialised snapshot.  `Payment.paid_at` (a wall-clock timestamp) is
  not modelled; no claim mentions it.
-/

/-- Error kinds of the specification, one per distinct `raise` site of the core. -/
inductive Error where
  | NotFound
  | InvalidRelation
  | InvalidFormat
  | SlotConflict
  | AlreadyPaid
  | OutOfRange
deriving DecidableEq, Repr

deriving instance DecidableEq for Except

/-- Python dict lookup `m[k]` (first entry with the key). -/
def alFind {α : Type} : List (Nat × α) → Nat → Option α
  | [], _ => none
  | (k', v) :: rest, k => if k' = k then some v else alFind rest k

/-- Python dict assignment `m[k] = v`: replace in place if the key exists,
otherwise append (insertion order preserved). -/
def upsert {α : Type} : List (Nat × α) → Nat → α → List (Nat × α)
  | [], k, v => [(k, v)]
  | (k', v') :: rest, k, v =>
    if k' = k then (k, v) :: rest else (k', v') :: upsert rest k v

/-- In-place mutation of the record stored at a key (Python `m[k].method(...)`). -/
def alModify {α : Type} : List (Nat × α) → Nat → (α → α) → List (Nat × α)
  | [], _, _ => []
  | (k', v) :: rest, k, f =>
    if k' = k then (k', f v) :: rest else (k', v) :: alModify rest k f

/-- Key list of an association list. -/
def keys {α : Type} (m : List (Nat × α)) : List Nat := m.map (·.1)

/-- Python `set.add`. -/
def addSlot (occ : List String) (k : String) : List String :=
  if k ∈ occ then occ else occ ++ [k]

/-- Python slice `p[-n:]`: the last `n` characters of a string. -/
def strLast (p : String) (n : Nat) : String := ⟨p.data.drop (p.data.length - n)⟩

/-- The masked phone accessor `User.get_phone_masked` (src/main.py lines 39-42). -/
def get_phone_masked (phone : String) : String :=
  if phone.length < 4 then "***" else "***-***-" ++ strLast phone 4

/-- The `Student` class: id, name, private phone, grade level, appointment ids. -/
structure Student where
  user_id : Nat
  name : String
  phone : String
  grade_level : String
  appointments : List Nat
deriving DecidableEq, Repr

/-- Method `Student.add_appointment`. -/
def Student.add_appointment (st : Student) (appointment_id : Nat) : Student :=
  { st with appointments := st.appointments ++ [appointment_id] }

/-- The `Teacher` class: id, name, private phone, branch, lesson ids, rating sum
and count. -/
structure Teacher where
  user_id : Nat
  name : String
  phone : String
  branch : String
  lessons : List Nat
  rating_sum : Int
  rating_count : Nat
deriving DecidableEq, Repr

/-- Method `Teacher.add_lesson`. -/
def Teacher.add_lesson (t : Teacher) (lesson_id : Nat) : Teacher :=
  { t with lessons := t.lessons ++ [lesson_id] }

/-- Method `Teacher.rate`: raises unless `1 <= score <= 5`, else accumulates. -/
def Teacher.rate (t : Teacher) (score : Int) : Except Error Teacher :=
  if 1 ≤ score ∧ score ≤ 5 then
    .ok { t with rating_sum := t.rating_sum + score, rating_count := t.rating_count + 1 }
  else .error .OutOfRange

/-- Method `Teacher.avg_rating`: `0.0` with no ratings, else `sum / count`. -/
def Teacher.avg_rating (t : Teacher) : Rat :=
  if t.rating_count = 0 then 0 else (t.rating_sum : Rat) / (t.rating_count : Rat)

/-- The `Lesson` dataclass. -/
structure Lesson where
  lesson_id : Nat
  title : String
  duration_min : Int
  hourly_price : Rat
deriving DecidableEq, Repr

/-- The `Payment` class (creation timestamp not modelled). -/
structure Payment where
  payment_id : Nat
  appointment_id : Nat
  amount : Rat
  method : String
deriving DecidableEq, Repr

/-- The `Appointment` class.  The composed `Student`/`Teacher` object references
are recorded through their immutable `user_id` fields (the only parts the core
ever reads from them); the immutable `Lesson` is embedded whole, mirroring the
composition in the source. -/
structure Appointment where
  appointment_id : Nat
  student_id : Nat
  teacher_id : Nat
  lesson : Lesson
  date_str : String
  time_str : String
  is_paid : Bool
  payment_id : Option Nat
deriving DecidableEq, Repr

/-- Method `Appointment.mark_paid`. -/
def Appointment.mark_paid (a : Appointment) (pid : Nat) : Appointment :=
  { a with is_paid := true, payment_id := some pid }

/-- Method `Appointment.calculate_total`: `hourly_price * (duration_min / 60)`. -/
def Appointment.calculate_total (a : Appointment) : Rat :=
  a.lesson.hourly_price * ((a.lesson.duration_min : Rat) / 60)

/-- The slot key string `teacher_id:date:time`. -/
def slotKeyStr (teacher_id : Nat) (date_str time_str : String) : String :=
  toString teacher_id ++ ":" ++ date_str ++ ":" ++ time_str

/-- Method `Appointment.slot_key`. -/
def Appointment.slot_key (a : Appointment) : String :=
  slotKeyStr a.teacher_id a.date_str a.time_str

/-- Numeric value of a digit string (the tokens below are digit-checked first). -/
def digitsVal (l : List Char) : Nat :=
  l.foldl (fun n c => n * 10 + (c.toNat - 48)) 0

/-- A one- or two-digit numeric token with value in `[lo, hi]`, as matched by the
CPython `_strptime` regular expressions for `%m`, `%d`, `%H`, `%M` (one or two
digits, value range checked, `"00"`-style tokens admitted exactly when `lo = 0`). -/
def numTok (l : List Char) (lo hi : Nat) : Bool :=
  (l.length == 1 || l.length == 2) && l.all Char.isDigit &&
    lo ≤ digitsVal l && digitsVal l ≤ hi

/-- Leap-year rule used by Python's `datetime`. -/
def isLeap (y : Nat) : Bool := y % 4 == 0 && (y % 100 != 0 || y % 400 == 0)

/-- Days in a month as validated by Python's `datetime.date`. -/
def daysInMonth (y m : Nat) : Nat :=
  if m = 2 then (if isLeap y then 29 else 28)
  else if m = 4 ∨ m = 6 ∨ m = 9 ∨ m = 11 then 30
  else 31

/-- Models `datetime.strptime(date_str, "%Y-%m-%d")` succeeding: a four-digit
year, a 1-2 digit month in 1..12, a 1-2 digit day in 1..31 (none of the numeric
tokens contains a dash, so splitting on dashes matches the strptime regex), then
`datetime.date` validation: `year >= 1` (MINYEAR) and day within the month. -/
def validDate (date_str : String) : Bool :=
  match date_str.data.splitOn '-' with
  | [y, m, d] =>
    y.length == 4 && y.all Char.isDigit && numTok m 1 12 && numTok d 1 31 &&
      1 ≤ digitsVal y && digitsVal d ≤ daysInMonth (digitsVal y) (digitsVal m)
  | _ => false

/-- Models `datetime.strptime(time_str, "%H:%M")` succeeding: 1-2 digit hour in
0..23 and 1-2 digit minute in 0..59. -/
def validTime (time_str : String) : Bool :=
  match time_str.data.splitOn ':' with
  | [h, m] => numTok h 0 23 && numTok m 0 59
  | _ => false

/-- One row of the `students` array of the JSON snapshot. -/
structure StudentRow where
  id : Nat
  name : String
  phone_masked : String
  grade : String
  appointments : List Nat
deriving DecidableEq, Repr

/-- One row of the `teachers` array of the JSON snapshot. -/
structure TeacherRow where
  id : Nat
  name : String
  branch : String
  lessons : List Nat
deriving DecidableEq, Repr

/-- One row of the `lessons` array of the JSON snapshot. -/
structure LessonRow where
  id : Nat
  title : String
  duration : Int
  hourly : Rat
deriving DecidableEq, Repr

/-- One row of the `appointments` array of the JSON snapshot. -/
structure AppointmentRow where
  id : Nat
  student_id : Nat
  teacher_id : Nat
  lesson_id : Nat
  date : String
  time : String
  paid : Bool
deriving DecidableEq, Repr

/-- The `next_ids` object of the JSON snapshot. -/
structure NextIds where
  student : Nat
  teacher : Nat
  lesson : Nat
  appointment : Nat
  payment : Nat
deriving DecidableEq, Repr

/-- The whole JSON snapshot written by `save` (payments are absent by design). -/
structure Snapshot where
  next_ids : NextIds
  students : List StudentRow
  teachers : List TeacherRow
  lessons : List LessonRow
  appointments : List AppointmentRow
deriving DecidableEq, Repr

/-- Contents of the backing file: either not valid JSON (any parse failure) or a
structurally complete snapshot document. -/
inductive DbFile where
  | malformed
  | parsed (sn : Snapshot)
deriving DecidableEq, Repr

/-- The `TutoringSystem` state: entity maps, occupied-slot set, id counters and
the backing file (`none` = no file on disk). -/
structure SystemState where
  students : List (Nat × Student)
  teachers : List (Nat × Teacher)
  lessons : List (Nat × Lesson)
  appointments : List (Nat × Appointment)
  payments : List (Nat × Payment)
  occupied_slots : List String
  next_student_id : Nat
  next_teacher_id : Nat
  next_lesson_id : Nat
  next_appointment_id : Nat
  next_payment_id : Nat
  db : Option DbFile
deriving DecidableEq, Repr

/-- The freshly constructed store before `load` runs: empty maps, counters 1. -/
def emptyState : SystemState :=
  { students := [], teachers := [], lessons := [], appointments := [],
    payments := [], occupied_slots := [],
    next_student_id := 1, next_teacher_id := 1, next_lesson_id := 1,
    next_appointment_id := 1, next_payment_id := 1, db := none }

/-- Serialisation of the store into the snapshot document (`save`'s `data`). -/
def serialize (s : SystemState) : Snapshot :=
  { next_ids :=
      { student := s.next_student_id, teacher := s.next_teacher_id,
        lesson := s.next_lesson_id, appointment := s.next_appointment_id,
        payment := s.next_payment_id },
    students := s.students.map fun p =>
      { id := p.2.user_id, name := p.2.name,
        phone_masked := get_phone_masked p.2.phone, grade := p.2.grade_level,
        appointments := p.2.appointments },
    teachers := s.teachers.map fun p =>
      { id := p.2.user_id, name := p.2.name, branch := p.2.branch,
        lessons := p.2.lessons },
    lessons := s.lessons.map fun p =>
      { id := p.2.lesson_id, title := p.2.title, duration := p.2.duration_min,
        hourly := p.2.hourly_price },
    appointments := s.appointments.map fun p =>
      { id := p.2.appointment_id, student_id := p.2.student_id,
        teacher_id := p.2.teacher_id, lesson_id := p.2.lesson.lesson_id,
        date := p.2.date_str, time := p.2.time_str, paid := p.2.is_paid } }

/-- Method `TutoringSystem.save`: overwrite the backing file with the snapshot. -/
def save (s : SystemState) : SystemState :=
  { s with db := some (.parsed (serialize s)) }

/-- Reconstruction of a `Student` at load time: the phone is the `"0000"`
placeholder, the appointment ids are appended in order. -/
def studentOfRow (r : StudentRow) : Student :=
  { user_id := r.id, name := r.name, phone := "0000", grade_level := r.grade,
    appointments := r.appointments }

/-- Reconstruction of a `Teacher` at load time: placeholder phone, ratings lost. -/
def teacherOfRow (r : TeacherRow) : Teacher :=
  { user_id := r.id, name := r.name, phone := "0000", branch := r.branch,
    lessons := r.lessons, rating_sum := 0, rating_count := 0 }

/-- Reconstruction of a `Lesson` at load time. -/
def lessonOfRow (r : LessonRow) : Lesson :=
  { lesson_id := r.id, title := r.title, duration_min := r.duration,
    hourly_price := r.hourly }

/-- The appointments loop of `load`: each row resolves its student, teacher and
lesson ids in the maps built so far; a missing reference raises `KeyError`,
which aborts the remaining rows (the exception is swallowed by the caller,
keeping everything loaded so far).  The source constructs the `Appointment`
afresh, so the serialised `paid` field is never read: every reloaded appointment
has `is_paid = false`. -/
def loadAppointments : List AppointmentRow → SystemState → SystemState
  | [], s => s
  | r :: rest, s =>
    match alFind s.students r.student_id, alFind s.teachers r.teacher_id,
        alFind s.lessons r.lesson_id with
    | some _, some te, some le =>
      let ap : Appointment :=
        { appointment_id := r.id, student_id := r.student_id,
          teacher_id := te.user_id, lesson := le, date_str := r.date,
          time_str := r.time, is_paid := false, payment_id := none }
      loadAppointments rest
        { s with appointments := upsert s.appointments ap.appointment_id ap,
                 occupied_slots := addSlot s.occupied_slots ap.slot_key }
    | _, _, _ => s

/-- Method `TutoringSystem.load`: no file or a parse failure leaves the state as
it is; a parsed snapshot restores counters, then students, teachers and lessons,
then runs the appointments loop (where a dangling reference aborts silently). -/
def load (s : SystemState) : SystemState :=
  match s.db with
  | none => s
  | some .malformed => s
  | some (.parsed sn) =>
    let s1 := { s with
      next_student_id := sn.next_ids.student,
      next_teacher_id := sn.next_ids.teacher,
      next_lesson_id := sn.next_ids.lesson,
      next_appointment_id := sn.next_ids.appointment,
      next_payment_id := sn.next_ids.payment }
    let s2 := sn.students.foldl
      (fun acc r => { acc with students := upsert acc.students r.id (studentOfRow r) }) s1
    let s3 := sn.teachers.foldl
      (fun acc r => { acc with teachers := upsert acc.teachers r.id (teacherOfRow r) }) s2
    let s4 := sn.lessons.foldl
      (fun acc r => { acc with lessons := upsert acc.lessons r.id (lessonOfRow r) }) s3
    loadAppointments sn.appointments s4

/-- The `TutoringSystem` constructor: fresh empty store over the given backing
file, then `load`. -/
def initSystem (file : Option DbFile) : SystemState :=
  load { emptyState with db := file }

/-- Method `TutoringSystem.add_student`. -/
def add_student (s : SystemState) (name phone grade_level : String) :
    Except Error Student × SystemState :=
  let st : Student :=
    { user_id := s.next_student_id, name := name, phone := phone,
      grade_level := grade_level, appointments := [] }
  let s1 := { s with students := upsert s.students st.user_id st,
                     next_student_id := s.next_student_id + 1 }
  (.ok st, save s1)

/-- Method `TutoringSystem.add_teacher`. -/
def add_teacher (s : SystemState) (name phone branch : String) :
    Except Error Teacher × SystemState :=
  let t : Teacher :=
    { user_id := s.next_teacher_id, name := name, phone := phone,
      branch := branch, lessons := [], rating_sum := 0, rating_count := 0 }
  let s1 := { s with teachers := upsert s.teachers t.user_id t,
                     next_teacher_id := s.next_teacher_id + 1 }
  (.ok t, save s1)

/-- Method `TutoringSystem.add_lesson`: teacher must exist, then the lesson is
created, registered, and linked into the teacher's lesson list. -/
def add_lesson (s : SystemState) (teacher_id : Nat) (title : String)
    (duration_min : Int) (hourly_price : Rat) : Except Error Lesson × SystemState :=
  match alFind s.teachers teacher_id with
  | none => (.error .NotFound, s)
  | some _ =>
    let lesson : Lesson :=
      { lesson_id := s.next_lesson_id, title := title,
        duration_min := duration_min, hourly_price := hourly_price }
    let s1 := { s with
      lessons := upsert s.lessons lesson.lesson_id lesson,
      teachers := alModify s.teachers teacher_id (·.add_lesson lesson.lesson_id),
      next_lesson_id := s.next_lesson_id + 1 }
    (.ok lesson, save s1)

/-- Method `TutoringSystem.create_appointment` (src/main.py lines 295-321),
checks in source order: student, teacher, lesson existence (`NotFound`), lesson
ownership (`InvalidRelation`), date then time syntax (`InvalidFormat`), slot
occupancy (`SlotConflict`); on success the slot is reserved, the appointment
registered, the student's list extended, the counter bumped and a snapshot
written. -/
def create_appointment (s : SystemState) (student_id teacher_id lesson_id : Nat)
    (date_str time_str : String) : Except Error Appointment × SystemState :=
  match alFind s.students student_id with
  | none => (.error .NotFound, s)
  | some _ =>
  match alFind s.teachers teacher_id with
  | none => (.error .NotFound, s)
  | some teacher =>
  match alFind s.lessons lesson_id with
  | none => (.error .NotFound, s)
  | some lesson =>
  if lesson_id ∈ teacher.lessons then
    if validDate date_str then
      if validTime time_str then
        let appt : Appointment :=
          { appointment_id := s.next_appointment_id, student_id := student_id,
            teacher_id := teacher.user_id, lesson := lesson,
            date_str := date_str, time_str := time_str, is_paid := false,
            payment_id := none }
        if appt.slot_key ∈ s.occupied_slots then (.error .SlotConflict, s)
        else
          let s1 := { s with
            occupied_slots := addSlot s.occupied_slots appt.slot_key,
            appointments := upsert s.appointments appt.appointment_id appt,
            students := alModify s.students student_id
              (·.add_appointment appt.appointment_id),
            next_appointment_id := s.next_appointment_id + 1 }
          (.ok appt, save s1)
      else (.error .InvalidFormat, s)
    else (.error .InvalidFormat, s)
  else (.error .InvalidRelation, s)

/-- Method `TutoringSystem.pay` (src/main.py lines 323-334): appointment must
exist and be unpaid; the payment is recorded, the appointment marked paid, the
counter bumped and a snapshot written. -/
def pay (s : SystemState) (appointment_id : Nat) (method : String) :
    Except Error Payment × SystemState :=
  match alFind s.appointments appointment_id with
  | none => (.error .NotFound, s)
  | some appt =>
    if appt.is_paid then (.error .AlreadyPaid, s)
    else
      let payment : Payment :=
        { payment_id := s.next_payment_id, appointment_id := appointment_id,
          amount := appt.calculate_total, method := method }
      let s1 := { s with
        payments := upsert s.payments s.next_payment_id payment,
        appointments := upsert s.appointments appointment_id
          (appt.mark_paid s.next_payment_id),
        next_payment_id := s.next_payment_id + 1 }
      (.ok payment, save s1)

/-- Method `TutoringSystem.rate_teacher`. -/
def rate_teacher (s : SystemState) (teacher_id : Nat) (score : Int) :
    Except Error Unit × SystemState :=
  match alFind s.teachers teacher_id with
  | none => (.error .NotFound, s)
  | some t =>
    match t.rate score with
    | .error e => (.error e, s)
    | .ok t' => (.ok (), save { s with teachers := upsert s.teachers teacher_id t' })

/-- Success test for a call result. -/
def isOkE {α : Type} : Except Error α → Bool
  | .ok _ => true
  | .error _ => false

/-- One core mutating call, for reasoning about arbitrary later activity. -/
inductive Op where
  | addStudent (name phone grade : String)
  | addTeacher (name phone branch : String)
  | addLesson (teacher_id : Nat) (title : String) (duration_min : Int) (hourly_price : Rat)
  | createAppointment (student_id teacher_id lesson_id : Nat) (date_str time_str : String)
  | payFor (appointment_id : Nat) (method : String)
  | rateTeacher (teacher_id : Nat) (score : Int)
deriving DecidableEq, Repr

/-- Run one call, keeping the error/success outcome and the resulting store. -/
def runOp : Op → SystemState → Except Error Unit × SystemState
  | .addStudent n p g, s =>
    let r := add_student s n p g
    (r.1.map fun _ => (), r.2)
  | .addTeacher n p b, s =>
    let r := add_teacher s n p b
    (r.1.map fun _ => (), r.2)
  | .addLesson tid ti d h, s =>
    let r := add_lesson s tid ti d h
    (r.1.map fun _ => (), r.2)
  | .createAppointment sid tid lid d t, s =>
    let r := create_appointment s sid tid lid d t
    (r.1.map fun _ => (), r.2)
  | .payFor aid m, s =>
    let r := pay s aid m
    (r.1.map fun _ => (), r.2)
  | .rateTeacher tid sc, s =>
    let r := rate_teacher s tid sc
    (r.1.map fun _ => (), r.2)

/-- The store after one call. -/
def applyOp (op : Op) (s : SystemState) : SystemState := (runOp op s).2

/-- The store after a sequence of calls. -/
def applyOps (ops : List Op) (s : SystemState) : SystemState :=
  ops.foldl (fun s op => applyOp op s) s

/-- Boolean presence tests, used to phrase validity hypotheses. -/
def hasStudent (s : SystemState) (i : Nat) : Bool := (alFind s.students i).isSome

/-- Teacher presence. -/
def hasTeacher (s : SystemState) (i : Nat) : Bool := (alFind s.teachers i).isSome

/-- Lesson presence. -/
def hasLesson (s : SystemState) (i : Nat) : Bool := (alFind s.lessons i).isSome

/-- Appointment presence. -/
def hasAppointment (s : SystemState) (i : Nat) : Bool := (alFind s.appointments i).isSome

/-- The given lesson id is in the given teacher's lesson list. -/
def lessonOwned (s : SystemState) (teacher_id lesson_id : Nat) : Bool :=
  match alFind s.teachers teacher_id with
  | some te => lesson_id ∈ te.lessons
  | none => false

/-- The slot the call would target is already occupied. -/
def slotOccupied (s : SystemState) (teacher_id : Nat) (date_str time_str : String) : Bool :=
  match alFind s.teachers teacher_id with
  | some te => slotKeyStr te.user_id date_str time_str ∈ s.occupied_slots
  | none => false

/-- Number of payment records in a payments map referencing a given appointment id. -/
def countRefs (m : List (Nat × Payment)) (appointment_id : Nat) : Nat :=
  (m.filter fun p => p.2.appointment_id = appointment_id).length

/-- Number of payment records referencing a given appointment id. -/
def countPayRefs (s : SystemState) (appointment_id : Nat) : Nat :=
  countRefs s.payments appointment_id

/-- Teacher map keys are all below the teacher id counter (holds in every
reachable store: ids are allocated from the counter and never reused). -/
def teacherKeysBounded (s : SystemState) : Prop :=
  ∀ k ∈ keys s.teachers, k < s.next_teacher_id

/-- Appointment map keys are all below the appointment id counter. -/
def apptKeysBounded (s : SystemState) : Prop :=
  ∀ k ∈ keys s.appointments, k < s.next_appointment_id

/-- Payment map keys are all below the payment id counter. -/
def payKeysBounded (s : SystemState) : Prop :=
  ∀ k ∈ keys s.payments, k < s.next_payment_id

instance (s : SystemState) : Decidable (teacherKeysBounded s) :=
  inferInstanceAs (Decidable (∀ k ∈ keys s.teachers, k < s.next_teacher_id))

instance (s : SystemState) : Decidable (apptKeysBounded s) :=
  inferInstanceAs (Decidable (∀ k ∈ keys s.appointments, k < s.next_appointment_id))

instance (s : SystemState) : Decidable (payKeysBounded s) :=
  inferInstanceAs (Decidable (∀ k ∈ keys s.payments, k < s.next_payment_id))

/-- The inductive invariant behind the pay-exactly-once property: the
appointment is recorded as paid, exactly one payment references it, and the id
counters dominate the respective key sets. -/
def paidInv (s : SystemState) (aid : Nat) : Prop :=
  (∃ a, alFind s.appointments aid = some a ∧ a.is_paid = true) ∧
    countPayRefs s aid = 1 ∧ apptKeysBounded s ∧ payKeysBounded s

/-- Demo store: one student, one teacher, one 60-minute lesson at 400/hour. -/
def demoBase : SystemState :=
  let s := (add_student emptyState "Ali" "5551234567" "Lise").2
  let s := (add_teacher s "Ayse" "5557654321" "Mat").2
  (add_lesson s 1 "Algebra" 60 400).2

/-- Demo store with a second teacher who owns no lessons. -/
def demoTwo : SystemState := (add_teacher demoBase "Banu" "5550001111" "Fizik").2

/-- Demo store after booking appointment 1 for the slot `1:2025-03-10:14:00`. -/
def demoBooked : SystemState := (create_appointment demoBase 1 1 1 "2025-03-10" "14:00").2

/-- Demo store after paying appointment 1. -/
def demoPaid : SystemState := (pay demoBooked 1 "Kart").2

/-- An appointment for a 90-minute lesson at hourly price 400. -/
def demoAppt90 : Appointment :=
  { appointment_id := 1, student_id := 1, teacher_id := 1,
    lesson := { lesson_id := 1, title := "L", duration_min := 90, hourly_price := 400 },
    date_str := "2025-03-10", time_str := "14:00", is_paid := false, payment_id := none }

/-- An appointment for a 30-minute lesson at hourly price 100. -/
def demoAppt30 : Appointment :=
  { demoAppt90 with
    lesson := { lesson_id := 1, title := "L", duration_min := 30, hourly_price := 100 } }

/-- The concrete appointment record booked in `demoBooked`. -/
def demoApptBooked : Appointment :=
  { appointment_id := 1, student_id := 1, teacher_id := 1,
    lesson := { lesson_id := 1, title := "Algebra", duration_min := 60, hourly_price := 400 },
    date_str := "2025-03-10", time_str := "14:00", is_paid := false, payment_id := none }

/-- The concrete teacher record registered in `demoBase`. -/
def demoTeacher : Teacher :=
  { user_id := 1, name := "Ayse", phone := "5557654321", branch := "Mat",
    lessons := [1], rating_sum := 0, rating_count := 0 }

/-- Submitting a list of scores for one teacher, in order. -/
def rateMany (s : SystemState) (teacher_id : Nat) (scores : List Int) : SystemState :=
  scores.foldl (fun s sc => (rate_teacher s teacher_id sc).2) s

/-- A snapshot whose only appointment row references a missing student id, and
whose counters are not all 1. -/
def badSnap : Snapshot :=
  { next_ids := { student := 7, teacher := 2, lesson := 2, appointment := 2, payment := 1 },
    students := [{ id := 1, name := "Ali", phone_masked := "***-***-4567",
                   grade := "Lise", appointments := [1] }],
    teachers := [{ id := 1, name := "Ayse", branch := "Mat", lessons := [1] }],
    lessons := [{ id := 1, title := "Algebra", duration := 60, hourly := 400 }],
    appointments := [{ id := 1, student_id := 99, teacher_id := 1, lesson_id := 1,
                       date := "2025-03-10", time := "14:00", paid := false }] }

/-! ### Association list lemmas -/

theorem alFind_upsert_self {α : Type} (m : List (Nat × α)) (k : Nat) (v : α) :
    alFind (upsert m k v) k = some v := by
  induction m with
  | nil => simp [upsert, alFind]
  | cons p rest ih =>
    by_cases h : p.1 = k
    · simp [upsert, h, alFind]
    · simp [upsert, h, alFind, ih]

theorem alFind_upsert_ne {α : Type} (m : List (Nat × α)) (k' k : Nat) (v : α)
    (h : k' ≠ k) : alFind (upsert m k' v) k = alFind m k := by
  induction m with
  | nil => simp [upsert, alFind, h]
  | cons p rest ih =>
    by_cases hp : p.1 = k'
    · simp [upsert, hp, alFind, h]
    · simp only [upsert, if_neg hp, alFind]
      by_cases hk : p.1 = k <;> simp [hk, ih]

theorem alFind_alModify_self {α : Type} (m : List (Nat × α)) (k : Nat) (f : α → α) :
    alFind (alModify m k f) k = (alFind m k).map f := by
  induction m with
  | nil => simp [alModify, alFind]
  | cons p rest ih =>
    by_cases h : p.1 = k
    · simp [alModify, h, alFind]
    · simp [alModify, h, alFind, ih]

theorem alFind_alModify_ne {α : Type} (m : List (Nat × α)) (k' k : Nat) (f : α → α)
    (h : k' ≠ k) : alFind (alModify m k' f) k = alFind m k := by
  induction m with
  | nil => simp [alModify, alFind]
  | cons p rest ih =>
    by_cases hp : p.1 = k'
    · simp [alModify, hp, alFind, h]
    · simp only [alModify, if_neg hp, alFind]
      by_cases hk : p.1 = k <;> simp [hk, ih]

@[simp] theorem keys_nil {α : Type} : keys ([] : List (Nat × α)) = [] := rfl

@[simp] theorem keys_cons {α : Type} (p : Nat × α) (rest : List (Nat × α)) :
    keys (p :: rest) = p.1 :: keys rest := rfl

theorem mem_keys_of_alFind {α : Type} {m : List (Nat × α)} {k : Nat} {v : α}
    (h : alFind m k = some v) : k ∈ keys m := by
  induction m with
  | nil => simp [alFind] at h
  | cons p rest ih =>
    by_cases hp : p.1 = k
    · simp [hp]
    · simp only [alFind, if_neg hp] at h
      simp [ih h]

theorem alFind_eq_none_of_not_mem {α : Type} {m : List (Nat × α)} {k : Nat}
    (h : k ∉ keys m) : alFind m k = none := by
  induction m with
  | nil => rfl
  | cons p rest ih =>
    simp only [keys_cons, List.mem_cons, not_or] at h
    have hp : p.1 ≠ k := fun hh => h.1 hh.symm
    simp only [alFind, if_neg hp]
    exact ih h.2

theorem keys_upsert {α : Type} (m : List (Nat × α)) (k : Nat) (v : α) :
    keys (upsert m k v) = if k ∈ keys m then keys m else keys m ++ [k] := by
  induction m with
  | nil => simp [upsert]
  | cons p rest ih =>
    by_cases hp : p.1 = k
    · simp [upsert, hp]
    · have hk : ¬ k = p.1 := fun hh => hp hh.symm
      simp only [upsert, if_neg hp, keys_cons, ih, List.mem_cons, hk, false_or]
      by_cases hm : k ∈ keys rest <;> simp [hm]

theorem mem_keys_upsert_iff {α : Type} (m : List (Nat × α)) (k' k : Nat) (v : α) :
    k ∈ keys (upsert m k' v) ↔ k ∈ keys m ∨ k = k' := by
  rw [keys_upsert]
  by_cases hm : k' ∈ keys m
  · simp only [if_pos hm]
    constructor
    · exact Or.inl
    · rintro (h | h)
      · exact h
      · rwa [h]
  · simp [if_neg hm]

theorem keys_alModify {α : Type} (m : List (Nat × α)) (k : Nat) (f : α → α) :
    keys (alModify m k f) = keys m := by
  induction m with
  | nil => rfl
  | cons p rest ih =>
    by_cases hp : p.1 = k <;> simp [alModify, hp, ih]

theorem keys_upsert_of_mem {α : Type} (m : List (Nat × α)) (k : Nat) (v : α)
    (h : k ∈ keys m) : keys (upsert m k v) = keys m := by
  rw [keys_upsert, if_pos h]

theorem upsert_of_not_mem {α : Type} (m : List (Nat × α)) (k : Nat) (v : α)
    (h : k ∉ keys m) : upsert m k v = m ++ [(k, v)] := by
  induction m with
  | nil => rfl
  | cons p rest ih =>
    simp only [keys_cons, List.mem_cons, not_or] at h
    have hp : p.1 ≠ k := fun hh => h.1 hh.symm
    simp [upsert, hp, ih h.2]

theorem mem_addSlot_self (l : List String) (k : String) : k ∈ addSlot l k := by
  unfold addSlot
  by_cases h : k ∈ l <;> simp [h]

theorem subset_addSlot (l : List String) (k : String) : l ⊆ addSlot l k := by
  unfold addSlot
  by_cases h : k ∈ l
  · simp [h]
  · simp only [if_neg h]
    exact List.subset_append_left l [k]

theorem countRefs_append (m₁ m₂ : List (Nat × Payment)) (aid : Nat) :
    countRefs (m₁ ++ m₂) aid = countRefs m₁ aid + countRefs m₂ aid := by
  simp [countRefs, List.filter_append]

theorem countRefs_single_of_ref (k : Nat) (p : Payment) (aid : Nat)
    (h : p.appointment_id = aid) : countRefs [(k, p)] aid = 1 := by
  simp [countRefs, h]

theorem countRefs_single_of_not_ref (k : Nat) (p : Payment) (aid : Nat)
    (h : p.appointment_id ≠ aid) : countRefs [(k, p)] aid = 0 := by
  simp [countRefs, h]

/-! ### Claim C4: lesson owned by a different teacher -/

/-- C4: if the student, teacher and lesson ids all exist but the lesson id is
not in the teacher's lesson list, `create_appointment` fails with
InvalidRelation (not NotFound) and leaves the store unchanged. -/
theorem c4_invalid_relation (s : SystemState) (sid tid lid : Nat) (d t : String)
    (hs : hasStudent s sid = true) (ht : hasTeacher s tid = true)
    (hl : hasLesson s lid = true) (hrel : lessonOwned s tid lid = false) :
    create_appointment s sid tid lid d t = (.error .InvalidRelation, s) := by
  unfold hasStudent at hs
  unfold hasTeacher at ht
  unfold hasLesson at hl
  unfold lessonOwned at hrel
  unfold create_appointment
  cases h1 : alFind s.students sid with
  | none => rw [h1] at hs; simp at hs
  | some st =>
    cases h2 : alFind s.teachers tid with
    | none => rw [h2] at ht; simp at ht
    | some te =>
      cases h3 : alFind s.lessons lid with
      | none => rw [h3] at hl; simp at hl
      | some le =>
        rw [h2] at hrel
        simp only [decide_eq_false_iff_not] at hrel
        simp [hrel]

/-- Witness for C4: in the two-teacher demo store, booking teacher 2 with
teacher 1's lesson fails with InvalidRelation although all three ids exist. -/
theorem c4_witness :
    hasStudent demoTwo 1 = true ∧ hasTeacher demoTwo 2 = true ∧
    hasLesson demoTwo 1 = true ∧ lessonOwned demoTwo 2 1 = false ∧
    create_appointment demoTwo 1 2 1 "2025-03-10" "14:00" = (.error .InvalidRelation, demoTwo) :=
  ⟨by decide, by decide, by decide, by decide,
    c4_invalid_relation demoTwo 1 2 1 "2025-03-10" "14:00"
      (by decide) (by decide) (by decide) (by decide)⟩

/-! ### Claim C10: phone masking -/

/-- C10: the masked phone accessor yields three stars for phones shorter than 4
characters and otherwise three-star groups followed by exactly the last four
characters; the persisted snapshot only ever contains the masked form. -/
theorem c10_phone_mask (phone : String) :
    (phone.length < 4 → get_phone_masked phone = "***") ∧
    (4 ≤ phone.length →
      get_phone_masked phone = "***-***-" ++ strLast phone 4 ∧
      (strLast phone 4).length = 4 ∧
      phone.data = phone.data.take (phone.data.length - 4) ++ (strLast phone 4).data) ∧
    ∀ s : SystemState, ∀ r ∈ (serialize s).students,
      ∃ p ∈ s.students, r.phone_masked = get_phone_masked p.2.phone := by
  refine ⟨?_, ?_, ?_⟩
  · intro h
    simp [get_phone_masked, h]
  · intro h
    have hn : ¬ phone.length < 4 := not_lt.mpr h
    have hlen : 4 ≤ phone.data.length := h
    refine ⟨by simp [get_phone_masked, hn], ?_, ?_⟩
    · show (String.mk (phone.data.drop (phone.data.length - 4))).length = 4
      simp only [String.length, List.length_drop]
      omega
    · simp only [strLast]
      exact (List.take_append_drop (phone.data.length - 4) phone.data).symm
  · intro s r hr
    simp only [serialize, List.mem_map] at hr
    obtain ⟨p, hp, hfp⟩ := hr
    exact ⟨p, hp, by rw [← hfp]⟩

/-- Witness for C10 at a ten-character phone number. -/
theorem c10_witness :
    4 ≤ ("5551234567" : String).length ∧
    get_phone_masked "5551234567" = "***-***-" ++ strLast "5551234567" 4 := by
  have h := (c10_phone_mask "5551234567").2.1 (by decide)
  exact ⟨by decide, h.1⟩

/-! ### Claim C5: billing amount -/

/-- C5: a successful `pay` records exactly `hourly_price * (duration / 60)` for
the lesson referenced by the appointment; a 90-minute lesson at 400/hour totals
600 and a 30-minute lesson at 100/hour totals 50. -/
theorem c5_payment_amount (s : SystemState) (aid : Nat) (m : String) (a : Appointment)
    (ha : alFind s.appointments aid = some a) (hnp : a.is_paid = false) :
    (∃ p, (pay s aid m).1 = .ok p ∧
      p.amount = a.lesson.hourly_price * ((a.lesson.duration_min : Rat) / 60)) ∧
    demoAppt90.calculate_total = 600 ∧ demoAppt30.calculate_total = 50 := by
  refine ⟨?_, ?_, ?_⟩
  · unfold pay
    rw [ha]
    simp [hnp, Appointment.calculate_total]
  · norm_num [Appointment.calculate_total, demoAppt90]
  · norm_num [Appointment.calculate_total, demoAppt30, demoAppt90]

/-- Witness for C5: paying the booked 60-minute, 400/hour appointment. -/
theorem c5_witness :
    ∃ p, (pay demoBooked 1 "Kart").1 = .ok p ∧
      p.amount = demoApptBooked.lesson.hourly_price *
        ((demoApptBooked.lesson.duration_min : Rat) / 60) :=
  (c5_payment_amount demoBooked 1 "Kart" demoApptBooked (by decide) (by decide)).1

/-! ### Claim C9: teacher rating -/

/-- C9: with an existing teacher, `rate_teacher` fails with OutOfRange exactly
when the score is outside `[1, 5]` (leaving the store unchanged), and otherwise
adds the score to the running sum and bumps the count; a fresh teacher has
average 0 and scores 5, 3, 4 give average 4. -/
theorem c9_rate_teacher (s : SystemState) (tid : Nat) (score : Int) (te : Teacher)
    (ht : alFind s.teachers tid = some te) :
    (¬(1 ≤ score ∧ score ≤ 5) → rate_teacher s tid score = (.error .OutOfRange, s)) ∧
    ((1 ≤ score ∧ score ≤ 5) →
      (rate_teacher s tid score).1 = .ok () ∧
      alFind (rate_teacher s tid score).2.teachers tid =
        some { te with rating_sum := te.rating_sum + score,
                       rating_count := te.rating_count + 1 }) ∧
    (te.rating_count = 0 → te.avg_rating = 0) ∧
    (alFind (rateMany demoBase 1 [5, 3, 4]).teachers 1).map Teacher.avg_rating = some 4 ∧
    (alFind demoBase.teachers 1).map Teacher.avg_rating = some 0 := by
  refine ⟨?_, ?_, ?_, ?_, ?_⟩
  · intro h
    unfold rate_teacher
    rw [ht]
    simp only [Teacher.rate, if_neg h]
  · intro h
    unfold rate_teacher
    rw [ht]
    simp only [Teacher.rate, if_pos h]
    exact ⟨trivial, alFind_upsert_self ..⟩
  · intro h
    simp [Teacher.avg_rating, h]
  · have hfind : alFind (rateMany demoBase 1 [5, 3, 4]).teachers 1 =
        some { demoTeacher with rating_sum := 12, rating_count := 3 } := by decide
    rw [hfind]
    simp only [Option.map_some]
    norm_num [Teacher.avg_rating, demoTeacher]
  · have hfind : alFind demoBase.teachers 1 = some demoTeacher := by decide
    rw [hfind]
    simp [Teacher.avg_rating, demoTeacher]

/-- Witness for C9: score 6 on the demo teacher is rejected with OutOfRange. -/
theorem c9_witness :
    rate_teacher demoBase 1 6 = (.error .OutOfRange, demoBase) :=
  (c9_rate_teacher demoBase 1 6 demoTeacher (by decide)).1 (by decide)

/-! ### Claim C7: order of the failure checks in create_appointment -/

theorem create_nf_student (s : SystemState) (sid tid lid : Nat) (d t : String)
    (h : alFind s.students sid = none) :
    create_appointment s sid tid lid d t = (.error .NotFound, s) := by
  unfold create_appointment
  rw [h]

theorem create_nf_teacher (s : SystemState) (sid tid lid : Nat) (d t : String)
    (st : Student) (h1 : alFind s.students sid = some st)
    (h2 : alFind s.teachers tid = none) :
    create_appointment s sid tid lid d t = (.error .NotFound, s) := by
  unfold create_appointment
  rw [h1, h2]

theorem create_nf_lesson (s : SystemState) (sid tid lid : Nat) (d t : String)
    (st : Student) (te : Teacher) (h1 : alFind s.students sid = some st)
    (h2 : alFind s.teachers tid = some te) (h3 : alFind s.lessons lid = none) :
    create_appointment s sid tid lid d t = (.error .NotFound, s) := by
  unfold create_appointment
  rw [h1, h2, h3]

theorem create_bad_relation (s : SystemState) (sid tid lid : Nat) (d t : String)
    (st : Student) (te : Teacher) (le : Lesson) (h1 : alFind s.students sid = some st)
    (h2 : alFind s.teachers tid = some te) (h3 : alFind s.lessons lid = some le)
    (hown : lid ∉ te.lessons) :
    create_appointment s sid tid lid d t = (.error .InvalidRelation, s) := by
  unfold create_appointment
  rw [h1, h2, h3]
  simp [hown]

theorem create_bad_date (s : SystemState) (sid tid lid : Nat) (d t : String)
    (st : Student) (te : Teacher) (le : Lesson) (h1 : alFind s.students sid = some st)
    (h2 : alFind s.teachers tid = some te) (h3 : alFind s.lessons lid = some le)
    (hown : lid ∈ te.lessons) (hd : validDate d = false) :
    create_appointment s sid tid lid d t = (.error .InvalidFormat, s) := by
  unfold create_appointment
  rw [h1, h2, h3]
  simp [hown, hd]

theorem create_bad_time (s : SystemState) (sid tid lid : Nat) (d t : String)
    (st : Student) (te : Teacher) (le : Lesson) (h1 : alFind s.students sid = some st)
    (h2 : alFind s.teachers tid = some te) (h3 : alFind s.lessons lid = some le)
    (hown : lid ∈ te.lessons) (hd : validDate d = true) (ht : validTime t = false) :
    create_appointment s sid tid lid d t = (.error .InvalidFormat, s) := by
  unfold create_appointment
  rw [h1, h2, h3]
  simp [hown, hd, ht]

theorem create_slot_conflict (s : SystemState) (sid tid lid : Nat) (d t : String)
    (st : Student) (te : Teacher) (le : Lesson) (h1 : alFind s.students sid = some st)
    (h2 : alFind s.teachers tid = some te) (h3 : alFind s.lessons lid = some le)
    (hown : lid ∈ te.lessons) (hd : validDate d = true) (ht : validTime t = true)
    (hocc : slotKeyStr te.user_id d t ∈ s.occupied_slots) :
    create_appointment s sid tid lid d t = (.error .SlotConflict, s) := by
  unfold create_appointment
  rw [h1, h2, h3]
  simp [hown, hd, ht, Appointment.slot_key, hocc]

/-- C7: `create_appointment` checks its failure conditions in a fixed order:
missing student, teacher or lesson ids give NotFound before the ownership
check; ownership (InvalidRelation) precedes date/time syntax (InvalidFormat);
and syntax precedes the slot-occupancy check (SlotConflict).  In particular a
malformed date together with a missing teacher id reports NotFound. -/
theorem c7_check_order (s : SystemState) (sid tid lid : Nat) (d t : String) :
    (hasStudent s sid = false → create_appointment s sid tid lid d t = (.error .NotFound, s)) ∧
    (hasStudent s sid = true → hasTeacher s tid = false →
      create_appointment s sid tid lid d t = (.error .NotFound, s)) ∧
    (hasStudent s sid = true → hasTeacher s tid = true → hasLesson s lid = false →
      create_appointment s sid tid lid d t = (.error .NotFound, s)) ∧
    (hasStudent s sid = true → hasTeacher s tid = true → hasLesson s lid = true →
      lessonOwned s tid lid = false →
      create_appointment s sid tid lid d t = (.error .InvalidRelation, s)) ∧
    (hasStudent s sid = true → hasTeacher s tid = true → hasLesson s lid = true →
      lessonOwned s tid lid = true → validDate d = false →
      create_appointment s sid tid lid d t = (.error .InvalidFormat, s)) ∧
    (hasStudent s sid = true → hasTeacher s tid = true → hasLesson s lid = true →
      lessonOwned s tid lid = true → validDate d = true → validTime t = false →
      create_appointment s sid tid lid d t = (.error .InvalidFormat, s)) ∧
    (hasStudent s sid = true → hasTeacher s tid = true → hasLesson s lid = true →
      lessonOwned s tid lid = true → validDate d = true → validTime t = true →
      slotOccupied s tid d t = true →
      create_appointment s sid tid lid d t = (.error .SlotConflict, s)) := by
  refine ⟨?_, ?_, ?_, ?_, ?_, ?_, ?_⟩
  · intro h1
    cases hs : alFind s.students sid with
    | none => exact create_nf_student s sid tid lid d t hs
    | some st =>
      unfold hasStudent at h1
      rw [hs] at h1
      simp at h1
  · intro h1 h2
    unfold hasStudent at h1
    unfold hasTeacher at h2
    cases hs : alFind s.students sid with
    | none => rw [hs] at h1; simp at h1
    | some st =>
      cases hte : alFind s.teachers tid with
      | none => exact create_nf_teacher s sid tid lid d t st hs hte
      | some te => rw [hte] at h2; simp at h2
  · intro h1 h2 h3
    unfold hasStudent at h1
    unfold hasTeacher at h2
    unfold hasLesson at h3
    cases hs : alFind s.students sid with
    | none => rw [hs] at h1; simp at h1
    | some st =>
      cases hte : alFind s.teachers tid with
      | none => rw [hte] at h2; simp at h2
      | some te =>
        cases hle : alFind s.lessons lid with
        | none => exact create_nf_lesson s sid tid lid d t st te hs hte hle
        | some le => rw [hle] at h3; simp at h3
  · intro h1 h2 h3 h4
    unfold hasStudent at h1
    unfold hasTeacher at h2
    unfold hasLesson at h3
    unfold lessonOwned at h4
    cases hs : alFind s.students sid with
    | none => rw [hs] at h1; simp at h1
    | some st =>
      cases hte : alFind s.teachers tid with
      | none => rw [hte] at h2; simp at h2
      | some te =>
        cases hle : alFind s.lessons lid with
        | none => rw [hle] at h3; simp at h3
        | some le =>
          rw [hte] at h4
          simp only [decide_eq_false_iff_not] at h4
          exact create_bad_relation s sid tid lid d t st te le hs hte hle h4
  · intro h1 h2 h3 h4 hd
    unfold hasStudent at h1
    unfold hasTeacher at h2
    unfold hasLesson at h3
    unfold lessonOwned at h4
    cases hs : alFind s.students sid with
    | none => rw [hs] at h1; simp at h1
    | some st =>
      cases hte : alFind s.teachers tid with
      | none => rw [hte] at h2; simp at h2
      | some te =>
        cases hle : alFind s.lessons lid with
        | none => rw [hle] at h3; simp at h3
        | some le =>
          rw [hte] at h4
          simp only [decide_eq_true_eq] at h4
          exact create_bad_date s sid tid lid d t st te le hs hte hle h4 hd
  · intro h1 h2 h3 h4 hd ht
    unfold hasStudent at h1
    unfold hasTeacher at h2
    unfold hasLesson at h3
    unfold lessonOwned at h4
    cases hs : alFind s.students sid with
    | none => rw [hs] at h1; simp at h1
    | some st =>
      cases hte : alFind s.teachers tid with
      | none => rw [hte] at h2; simp at h2
      | some te =>
        cases hle : alFind s.lessons lid with
        | none => rw [hle] at h3; simp at h3
        | some le =>
          rw [hte] at h4
          simp only [decide_eq_true_eq] at h4
          exact create_bad_time s sid tid lid d t st te le hs hte hle h4 hd ht
  · intro h1 h2 h3 h4 hd ht hocc
    unfold hasStudent at h1
    unfold hasTeacher at h2
    unfold hasLesson at h3
    unfold lessonOwned at h4
    unfold slotOccupied at hocc
    cases hs : alFind s.students sid with
    | none => rw [hs] at h1; simp at h1
    | some st =>
      cases hte : alFind s.teachers tid with
      | none => rw [hte] at h2; simp at h2
      | some te =>
        cases hle : alFind s.lessons lid with
        | none => rw [hle] at h3; simp at h3
        | some le =>
          rw [hte] at h4 hocc
          simp only [decide_eq_true_eq] at h4 hocc
          exact create_slot_conflict s sid tid lid d t st te le hs hte hle h4 hd ht hocc

/-- Witness for C7: a malformed date together with a missing teacher id reports
NotFound, not InvalidFormat. -/
theorem c7_witness :
    validDate "not-a-date" = false ∧ hasTeacher demoBase 99 = false ∧
    create_appointment demoBase 1 99 1 "not-a-date" "14:00" = (.error .NotFound, demoBase) :=
  ⟨by decide, by decide,
    (c7_check_order demoBase 1 99 1 "not-a-date" "14:00").2.1 (by decide) (by decide)⟩

/-! ### Result characterisations of the mutating operations -/

theorem save_db (x : SystemState) :
    (save x).db = some (.parsed (serialize (save x))) := rfl

theorem create_cases (s : SystemState) (sid tid lid : Nat) (d t : String) :
    (∃ e, create_appointment s sid tid lid d t = (.error e, s)) ∨
    (∃ a : Appointment,
      create_appointment s sid tid lid d t = (.ok a, save { s with
        occupied_slots := addSlot s.occupied_slots a.slot_key,
        appointments := upsert s.appointments a.appointment_id a,
        students := alModify s.students sid (·.add_appointment a.appointment_id),
        next_appointment_id := s.next_appointment_id + 1 }) ∧
      a.appointment_id = s.next_appointment_id ∧ a.is_paid = false ∧
      a.student_id = sid ∧ a.date_str = d ∧ a.time_str = t ∧
      (∃ te, alFind s.teachers tid = some te ∧ a.teacher_id = te.user_id ∧
        lid ∈ te.lessons) ∧
      (∃ st, alFind s.students sid = some st) ∧
      validDate d = true ∧ validTime t = true ∧ a.slot_key ∉ s.occupied_slots) := by
  unfold create_appointment
  cases h1 : alFind s.students sid with
  | none => exact Or.inl ⟨.NotFound, rfl⟩
  | some st =>
  cases h2 : alFind s.teachers tid with
  | none => exact Or.inl ⟨.NotFound, rfl⟩
  | some te =>
  cases h3 : alFind s.lessons lid with
  | none => exact Or.inl ⟨.NotFound, rfl⟩
  | some le =>
  by_cases hown : lid ∈ te.lessons
  · by_cases hd : validDate d
    · by_cases ht : validTime t
      · by_cases hocc : slotKeyStr te.user_id d t ∈ s.occupied_slots
        · refine Or.inl ⟨.SlotConflict, ?_⟩
          simp [hown, hd, ht, Appointment.slot_key, hocc]
        · refine Or.inr ⟨{ appointment_id := s.next_appointment_id, student_id := sid,
                           teacher_id := te.user_id, lesson := le, date_str := d,
                           time_str := t, is_paid := false, payment_id := none },
            ?_, rfl, rfl, rfl, rfl, rfl, ⟨te, rfl, rfl, hown⟩, ⟨st, rfl⟩, hd, ht, ?_⟩
          · simp [hown, hd, ht, Appointment.slot_key, hocc]
          · simpa [Appointment.slot_key] using hocc
      · refine Or.inl ⟨.InvalidFormat, ?_⟩
        simp [hown, hd, ht]
    · refine Or.inl ⟨.InvalidFormat, ?_⟩
      simp [hown, hd]
  · refine Or.inl ⟨.InvalidRelation, ?_⟩
    simp [hown]

theorem pay_cases (s : SystemState) (aid : Nat) (m : String) :
    (∃ e, pay s aid m = (.error e, s)) ∨
    (∃ a, alFind s.appointments aid = some a ∧ a.is_paid = false ∧
      pay s aid m = (.ok { payment_id := s.next_payment_id, appointment_id := aid,
                           amount := a.calculate_total, method := m },
        save { s with
               payments := upsert s.payments s.next_payment_id
                 { payment_id := s.next_payment_id, appointment_id := aid,
                   amount := a.calculate_total, method := m },
               appointments := upsert s.appointments aid (a.mark_paid s.next_payment_id),
               next_payment_id := s.next_payment_id + 1 })) := by
  unfold pay
  cases h1 : alFind s.appointments aid with
  | none => exact Or.inl ⟨.NotFound, rfl⟩
  | some a =>
  by_cases hp : a.is_paid
  · refine Or.inl ⟨.AlreadyPaid, ?_⟩
    simp [hp]
  · refine Or.inr ⟨a, rfl, by simpa using hp, ?_⟩
    simp [hp]

theorem rate_cases (s : SystemState) (tid : Nat) (sc : Int) :
    (∃ e, rate_teacher s tid sc = (.error e, s)) ∨
    (∃ te, alFind s.teachers tid = some te ∧
      rate_teacher s tid sc = (.ok (), save { s with
        teachers := upsert s.teachers tid
          { te with rating_sum := te.rating_sum + sc,
                    rating_count := te.rating_count + 1 } })) := by
  unfold rate_teacher
  cases h1 : alFind s.teachers tid with
  | none => exact Or.inl ⟨.NotFound, rfl⟩
  | some te =>
  by_cases hsc : 1 ≤ sc ∧ sc ≤ 5
  · refine Or.inr ⟨te, rfl, ?_⟩
    simp [Teacher.rate, hsc]
  · refine Or.inl ⟨.OutOfRange, ?_⟩
    simp [Teacher.rate, hsc]

theorem add_lesson_cases (s : SystemState) (tid : Nat) (ti : String) (dm : Int) (hp : Rat) :
    (add_lesson s tid ti dm hp = (.error .NotFound, s) ∧ alFind s.teachers tid = none) ∨
    (add_lesson s tid ti dm hp =
      (.ok { lesson_id := s.next_lesson_id, title := ti, duration_min := dm,
             hourly_price := hp },
        save { s with
          lessons := upsert s.lessons s.next_lesson_id
            { lesson_id := s.next_lesson_id, title := ti, duration_min := dm,
              hourly_price := hp },
          teachers := alModify s.teachers tid (·.add_lesson s.next_lesson_id),
          next_lesson_id := s.next_lesson_id + 1 })) := by
  unfold add_lesson
  cases h1 : alFind s.teachers tid with
  | none => exact Or.inl ⟨rfl, rfl⟩
  | some te => exact Or.inr rfl

/-! ### Claim C8: atomicity of the mutating operations -/

/-- C8: every mutating operation either fails leaving the store (entity maps,
slot index, counters and persisted snapshot) exactly as it was, or succeeds
with its state changes applied together followed by a full snapshot write
(`db` holds the serialisation of the final state); for a successful booking the
slot reservation, the appointment record and the student's appointment-list
append are all present in the resulting state. -/
theorem c8_atomicity :
    (∀ (op : Op) (s : SystemState),
      (isOkE (runOp op s).1 = false → (runOp op s).2 = s) ∧
      (isOkE (runOp op s).1 = true →
        (runOp op s).2.db = some (.parsed (serialize (runOp op s).2)))) ∧
    (∀ (s : SystemState) (sid tid lid : Nat) (d t : String) (a : Appointment),
      (create_appointment s sid tid lid d t).1 = .ok a →
      a.slot_key ∈ (create_appointment s sid tid lid d t).2.occupied_slots ∧
      alFind (create_appointment s sid tid lid d t).2.appointments a.appointment_id =
        some a ∧
      (∃ st, alFind s.students sid = some st ∧
        alFind (create_appointment s sid tid lid d t).2.students sid =
          some (st.add_appointment a.appointment_id) ∧
        a.appointment_id ∈ (st.add_appointment a.appointment_id).appointments)) := by
  constructor
  · intro op s
    cases op with
    | addStudent n p g =>
      refine ⟨fun h => ?_, fun _ => ?_⟩
      · simp [runOp, add_student, isOkE, Except.map] at h
      · exact save_db _
    | addTeacher n p b =>
      refine ⟨fun h => ?_, fun _ => ?_⟩
      · simp [runOp, add_teacher, isOkE, Except.map] at h
      · exact save_db _
    | addLesson tid ti dm hp =>
      rcases add_lesson_cases s tid ti dm hp with ⟨he, -⟩ | hok
      · refine ⟨fun _ => ?_, fun h => ?_⟩
        · simp [runOp, he]
        · simp [runOp, he, isOkE, Except.map] at h
      · refine ⟨fun h => ?_, fun _ => ?_⟩
        · simp [runOp, hok, isOkE, Except.map] at h
        · simp only [runOp, hok]
          exact save_db _
    | createAppointment sid tid lid d t =>
      rcases create_cases s sid tid lid d t with ⟨e, he⟩ | ⟨a, hok, -⟩
      · refine ⟨fun _ => ?_, fun h => ?_⟩
        · simp [runOp, he]
        · simp [runOp, he, isOkE, Except.map] at h
      · refine ⟨fun h => ?_, fun _ => ?_⟩
        · simp [runOp, hok, isOkE, Except.map] at h
        · simp only [runOp, hok]
          exact save_db _
    | payFor aid m =>
      rcases pay_cases s aid m with ⟨e, he⟩ | ⟨a, -, -, hok⟩
      · refine ⟨fun _ => ?_, fun h => ?_⟩
        · simp [runOp, he]
        · simp [runOp, he, isOkE, Except.map] at h
      · refine ⟨fun h => ?_, fun _ => ?_⟩
        · simp [runOp, hok, isOkE, Except.map] at h
        · simp only [runOp, hok]
          exact save_db _
    | rateTeacher tid sc =>
      rcases rate_cases s tid sc with ⟨e, he⟩ | ⟨te, -, hok⟩
      · refine ⟨fun _ => ?_, fun h => ?_⟩
        · simp [runOp, he]
        · simp [runOp, he, isOkE, Except.map] at h
      · refine ⟨fun h => ?_, fun _ => ?_⟩
        · simp [runOp, hok, isOkE, Except.map] at h
        · simp only [runOp, hok]
          exact save_db _
  · intro s sid tid lid d t a h
    rcases create_cases s sid tid lid d t with ⟨e, he⟩ | hok
    · rw [he] at h
      simp at h
    · obtain ⟨a', hok, hid, hpaid, hsid, hdate, htime, hte, ⟨st, hst⟩, hvd, hvt, hnocc⟩ := hok
      have ha : a = a' := by
        rw [hok] at h
        simpa using h.symm
      rw [ha, hok]
      refine ⟨mem_addSlot_self .., alFind_upsert_self .., st, hst, ?_, by
        simp [Student.add_appointment]⟩
      show alFind (alModify s.students sid fun x => x.add_appointment a'.appointment_id)
          sid = some (st.add_appointment a'.appointment_id)
      rw [alFind_alModify_self, hst]
      rfl

/-- Witness for C8: a pay call on a nonexistent appointment id leaves the empty
store untouched. -/
theorem c8_witness :
    isOkE (runOp (.payFor 1 "Kart") emptyState).1 = false ∧
    (runOp (.payFor 1 "Kart") emptyState).2 = emptyState :=
  ⟨by decide, (c8_atomicity.1 (.payFor 1 "Kart") emptyState).1 (by decide)⟩

/-! ### Preservation lemmas along arbitrary later operations -/

theorem occ_mono_op (op : Op) (s : SystemState) :
    s.occupied_slots ⊆ (applyOp op s).occupied_slots := by
  cases op with
  | addStudent n p g => exact List.Subset.refl _
  | addTeacher n p b => exact List.Subset.refl _
  | addLesson tid ti dm hp =>
    rcases add_lesson_cases s tid ti dm hp with ⟨he, -⟩ | hok
    · simp only [applyOp, runOp, he]
      exact List.Subset.refl _
    · simp only [applyOp, runOp, hok]
      exact List.Subset.refl _
  | createAppointment sid tid lid d t =>
    rcases create_cases s sid tid lid d t with ⟨e, he⟩ | ⟨a, hok, -⟩
    · simp only [applyOp, runOp, he]
      exact List.Subset.refl _
    · simp only [applyOp, runOp, hok]
      exact subset_addSlot ..
  | payFor aid m =>
    rcases pay_cases s aid m with ⟨e, he⟩ | ⟨a, -, -, hok⟩
    · simp only [applyOp, runOp, he]
      exact List.Subset.refl _
    · simp only [applyOp, runOp, hok]
      exact List.Subset.refl _
  | rateTeacher tid sc =>
    rcases rate_cases s tid sc with ⟨e, he⟩ | ⟨te, -, hok⟩
    · simp only [applyOp, runOp, he]
      exact List.Subset.refl _
    · simp only [applyOp, runOp, hok]
      exact List.Subset.refl _

theorem occ_mono_ops (ops : List Op) (s : SystemState) :
    s.occupied_slots ⊆ (applyOps ops s).occupied_slots := by
  induction ops generalizing s with
  | nil => exact List.Subset.refl _
  | cons op rest ih => exact (occ_mono_op op s).trans (ih (applyOp op s))

theorem uid_stable_op (op : Op) (s : SystemState) (tid u : Nat)
    (hb : teacherKeysBounded s)
    (hu : (alFind s.teachers tid).map (·.user_id) = some u) :
    teacherKeysBounded (applyOp op s) ∧
      (alFind (applyOp op s).teachers tid).map (·.user_id) = some u := by
  obtain ⟨te0, hte0, huid0⟩ : ∃ te0, alFind s.teachers tid = some te0 ∧ te0.user_id = u := by
    cases hf : alFind s.teachers tid with
    | none => rw [hf] at hu; cases hu
    | some te0 => rw [hf] at hu; exact ⟨te0, rfl, by simpa using hu⟩
  have htid : tid ∈ keys s.teachers := mem_keys_of_alFind hte0
  have htidlt : tid < s.next_teacher_id := hb tid htid
  cases op with
  | addStudent n p g => exact ⟨hb, hu⟩
  | addTeacher n p b =>
    constructor
    · intro k hk
      show k < s.next_teacher_id + 1
      have : k ∈ keys (upsert s.teachers s.next_teacher_id
          { user_id := s.next_teacher_id, name := n, phone := p, branch := b,
            lessons := [], rating_sum := 0, rating_count := 0 }) := hk
      rw [mem_keys_upsert_iff] at this
      rcases this with hm | hEq
      · have := hb k hm; omega
      · omega
    · show (alFind (upsert s.teachers s.next_teacher_id _) tid).map (·.user_id) = some u
      rw [alFind_upsert_ne _ _ _ _ (by omega)]
      exact hu
  | addLesson tid' ti dm hp =>
    rcases add_lesson_cases s tid' ti dm hp with ⟨he, -⟩ | hok
    · simp only [applyOp, runOp, he]
      exact ⟨hb, hu⟩
    · simp only [applyOp, runOp, hok]
      constructor
      · intro k hk
        have : k ∈ keys (alModify s.teachers tid' (·.add_lesson s.next_lesson_id)) := hk
        rw [keys_alModify] at this
        exact hb k this
      · show (alFind (alModify s.teachers tid' (·.add_lesson s.next_lesson_id)) tid).map
            (·.user_id) = some u
        by_cases hEq : tid' = tid
        · subst hEq
          rw [alFind_alModify_self, hte0]
          simpa [Teacher.add_lesson] using huid0
        · rw [alFind_alModify_ne _ _ _ _ hEq]
          exact hu
  | createAppointment sid tid2 lid d t =>
    rcases create_cases s sid tid2 lid d t with ⟨e, he⟩ | ⟨a, hok, -⟩
    · simp only [applyOp, runOp, he]
      exact ⟨hb, hu⟩
    · simp only [applyOp, runOp, hok]
      exact ⟨hb, hu⟩
  | payFor aid m =>
    rcases pay_cases s aid m with ⟨e, he⟩ | ⟨a, -, -, hok⟩
    · simp only [applyOp, runOp, he]
      exact ⟨hb, hu⟩
    · simp only [applyOp, runOp, hok]
      exact ⟨hb, hu⟩
  | rateTeacher tid' sc =>
    rcases rate_cases s tid' sc with ⟨e, he⟩ | ⟨te, hte, hok⟩
    · simp only [applyOp, runOp, he]
      exact ⟨hb, hu⟩
    · simp only [applyOp, runOp, hok]
      have htid' : tid' ∈ keys s.teachers := mem_keys_of_alFind hte
      constructor
      · intro k hk
        have : k ∈ keys (upsert s.teachers tid'
            { te with rating_sum := te.rating_sum + sc,
                      rating_count := te.rating_count + 1 }) := hk
        rw [keys_upsert_of_mem _ _ _ htid'] at this
        exact hb k this
      · show (alFind (upsert s.teachers tid' _) tid).map (·.user_id) = some u
        by_cases hEq : tid' = tid
        · subst hEq
          rw [alFind_upsert_self]
          have : te = te0 := by rw [hte0] at hte; exact (Option.some.inj hte).symm
          simp [this, huid0]
        · rw [alFind_upsert_ne _ _ _ _ hEq]
          exact hu

theorem uid_stable_ops (ops : List Op) (s : SystemState) (tid u : Nat)
    (hb : teacherKeysBounded s)
    (hu : (alFind s.teachers tid).map (·.user_id) = some u) :
    teacherKeysBounded (applyOps ops s) ∧
      (alFind (applyOps ops s).teachers tid).map (·.user_id) = some u := by
  induction ops generalizing s with
  | nil => exact ⟨hb, hu⟩
  | cons op rest ih =>
    obtain ⟨hb1, hu1⟩ := uid_stable_op op s tid u hb hu
    exact ih (applyOp op s) hb1 hu1

theorem paidInv_op (op : Op) (s : SystemState) (aid : Nat) (h : paidInv s aid) :
    paidInv (applyOp op s) aid := by
  obtain ⟨⟨a0, ha0, hpaid0⟩, hcount, hbA, hbP⟩ := h
  cases op with
  | addStudent n p g => exact ⟨⟨a0, ha0, hpaid0⟩, hcount, hbA, hbP⟩
  | addTeacher n p b => exact ⟨⟨a0, ha0, hpaid0⟩, hcount, hbA, hbP⟩
  | addLesson tid ti dm hp =>
    rcases add_lesson_cases s tid ti dm hp with ⟨he, -⟩ | hok
    · simp only [applyOp, runOp, he]
      exact ⟨⟨a0, ha0, hpaid0⟩, hcount, hbA, hbP⟩
    · simp only [applyOp, runOp, hok]
      exact ⟨⟨a0, ha0, hpaid0⟩, hcount, hbA, hbP⟩
  | createAppointment sid tid lid d t =>
    rcases create_cases s sid tid lid d t with ⟨e, he⟩ | ⟨a, hok, hid, -⟩
    · simp only [applyOp, runOp, he]
      exact ⟨⟨a0, ha0, hpaid0⟩, hcount, hbA, hbP⟩
    · simp only [applyOp, runOp, hok]
      have haidlt : aid < s.next_appointment_id := hbA aid (mem_keys_of_alFind ha0)
      have hne : a.appointment_id ≠ aid := by rw [hid]; omega
      refine ⟨⟨a0, ?_, hpaid0⟩, hcount, ?_, hbP⟩
      · show alFind (upsert s.appointments a.appointment_id a) aid = some a0
        rw [alFind_upsert_ne _ _ _ _ hne]
        exact ha0
      · intro k hk
        show k < s.next_appointment_id + 1
        have : k ∈ keys (upsert s.appointments a.appointment_id a) := hk
        rw [mem_keys_upsert_iff] at this
        rcases this with hm | hEq
        · have := hbA k hm; omega
        · rw [hEq, hid]; omega
  | payFor aid2 m =>
    rcases pay_cases s aid2 m with ⟨e, he⟩ | ⟨a, hfa, hnpa, hok⟩
    · simp only [applyOp, runOp, he]
      exact ⟨⟨a0, ha0, hpaid0⟩, hcount, hbA, hbP⟩
    · have hne : aid2 ≠ aid := by
        intro hEq
        rw [hEq, ha0] at hfa
        have : a0 = a := Option.some.inj hfa
        rw [← this, hpaid0] at hnpa
        cases hnpa
      simp only [applyOp, runOp, hok]
      have hpidmem : s.next_payment_id ∉ keys s.payments := fun hmem => by
        have := hbP _ hmem; omega
      have haid2mem : aid2 ∈ keys s.appointments := mem_keys_of_alFind hfa
      refine ⟨⟨a0, ?_, hpaid0⟩, ?_, ?_, ?_⟩
      · show alFind (upsert s.appointments aid2 (a.mark_paid s.next_payment_id)) aid = some a0
        rw [alFind_upsert_ne _ _ _ _ hne]
        exact ha0
      · show countRefs (upsert s.payments s.next_payment_id
            { payment_id := s.next_payment_id, appointment_id := aid2,
              amount := a.calculate_total, method := m }) aid = 1
        rw [upsert_of_not_mem _ _ _ hpidmem, countRefs_append,
          countRefs_single_of_not_ref _ _ _ hne]
        exact hcount
      · intro k hk
        show k < s.next_appointment_id
        have : k ∈ keys (upsert s.appointments aid2 (a.mark_paid s.next_payment_id)) := hk
        rw [keys_upsert_of_mem _ _ _ haid2mem] at this
        exact hbA k this
      · intro k hk
        show k < s.next_payment_id + 1
        have : k ∈ keys (upsert s.payments s.next_payment_id
            { payment_id := s.next_payment_id, appointment_id := aid2,
              amount := a.calculate_total, method := m }) := hk
        rw [mem_keys_upsert_iff] at this
        rcases this with hm | hEq
        · have := hbP k hm; omega
        · omega
  | rateTeacher tid sc =>
    rcases rate_cases s tid sc with ⟨e, he⟩ | ⟨te, -, hok⟩
    · simp only [applyOp, runOp, he]
      exact ⟨⟨a0, ha0, hpaid0⟩, hcount, hbA, hbP⟩
    · simp only [applyOp, runOp, hok]
      exact ⟨⟨a0, ha0, hpaid0⟩, hcount, hbA, hbP⟩

theorem paidInv_ops (ops : List Op) (s : SystemState) (aid : Nat) (h : paidInv s aid) :
    paidInv (applyOps ops s) aid := by
  induction ops generalizing s with
  | nil => exact h
  | cons op rest ih => exact ih (applyOp op s) (paidInv_op op s aid h)

/-! ### Claim C3: pay succeeds once, then AlreadyPaid forever -/

theorem pay_already (s : SystemState) (aid : Nat) (m : String) (a : Appointment)
    (ha : alFind s.appointments aid = some a) (hp : a.is_paid = true) :
    pay s aid m = (.error .AlreadyPaid, s) := by
  unfold pay
  rw [ha]
  simp [hp]

/-- C3: for an existing unpaid appointment (in a store whose id counters
dominate the key sets and with no payment referencing it yet), the first `pay`
succeeds, and after any sequence of further operations: a repeated `pay` on the
same id fails with AlreadyPaid leaving the store unchanged, exactly one payment
references the appointment, and the paid flag is still true (it never reverts). -/
theorem c3_pay_exactly_once (s : SystemState) (aid : Nat) (method : String)
    (a : Appointment) (ha : alFind s.appointments aid = some a)
    (hnp : a.is_paid = false) (hc : countPayRefs s aid = 0)
    (hbA : apptKeysBounded s) (hbP : payKeysBounded s) :
    isOkE (pay s aid method).1 = true ∧
    ∀ (ops : List Op) (m2 : String),
      pay (applyOps ops (pay s aid method).2) aid m2 =
        (.error .AlreadyPaid, applyOps ops (pay s aid method).2) ∧
      countPayRefs (applyOps ops (pay s aid method).2) aid = 1 ∧
      ∃ a2, alFind (applyOps ops (pay s aid method).2).appointments aid = some a2 ∧
        a2.is_paid = true := by
  have haidmem : aid ∈ keys s.appointments := mem_keys_of_alFind ha
  have hpidmem : s.next_payment_id ∉ keys s.payments := fun hmem => by
    have := hbP _ hmem; omega
  have hres : pay s aid method = (.ok { payment_id := s.next_payment_id,
                                        appointment_id := aid,
                                        amount := a.calculate_total,
                                        method := method },
    save { s with
           payments := upsert s.payments s.next_payment_id
             { payment_id := s.next_payment_id, appointment_id := aid,
               amount := a.calculate_total, method := method },
           appointments := upsert s.appointments aid (a.mark_paid s.next_payment_id),
           next_payment_id := s.next_payment_id + 1 }) := by
    unfold pay
    rw [ha]
    simp [hnp]
  have hinv : paidInv (pay s aid method).2 aid := by
    rw [hres]
    refine ⟨⟨a.mark_paid s.next_payment_id, ?_, rfl⟩, ?_, ?_, ?_⟩
    · exact alFind_upsert_self ..
    · show countRefs (upsert s.payments s.next_payment_id
          { payment_id := s.next_payment_id, appointment_id := aid,
            amount := a.calculate_total, method := method }) aid = 1
      rw [upsert_of_not_mem _ _ _ hpidmem, countRefs_append,
        countRefs_single_of_ref _ _ _ rfl]
      rw [countPayRefs] at hc
      omega
    · intro k hk
      show k < s.next_appointment_id
      have : k ∈ keys (upsert s.appointments aid (a.mark_paid s.next_payment_id)) := hk
      rw [keys_upsert_of_mem _ _ _ haidmem] at this
      exact hbA k this
    · intro k hk
      show k < s.next_payment_id + 1
      have : k ∈ keys (upsert s.payments s.next_payment_id
          { payment_id := s.next_payment_id, appointment_id := aid,
            amount := a.calculate_total, method := method }) := hk
      rw [mem_keys_upsert_iff] at this
      rcases this with hm | hEq
      · have := hbP k hm; omega
      · omega
  refine ⟨by rw [hres]; rfl, ?_⟩
  intro ops m2
  obtain ⟨⟨a2, ha2, hpaid2⟩, hcount2, -, -⟩ := paidInv_ops ops (pay s aid method).2 aid hinv
  exact ⟨pay_already _ _ _ _ ha2 hpaid2, hcount2, a2, ha2, hpaid2⟩

/-- Witness for C3: paying appointment 1 in the booked demo store, then rating
the teacher, then paying again yields AlreadyPaid with exactly one payment. -/
theorem c3_witness :
    isOkE (pay demoBooked 1 "Kart").1 = true ∧
    pay (applyOps [.rateTeacher 1 5] (pay demoBooked 1 "Kart").2) 1 "Kart" =
      (.error .AlreadyPaid, applyOps [.rateTeacher 1 5] (pay demoBooked 1 "Kart").2) ∧
    countPayRefs (applyOps [.rateTeacher 1 5] (pay demoBooked 1 "Kart").2) 1 = 1 := by
  have h := c3_pay_exactly_once demoBooked 1 "Kart" demoApptBooked (by decide) (by decide)
    (by decide) (by decide) (by decide)
  exact ⟨h.1, (h.2 [.rateTeacher 1 5] "Kart").1, (h.2 [.rateTeacher 1 5] "Kart").2.1⟩

/-! ### Claim C1: at most one appointment per (teacher, date, time) slot -/

/-- C1: once `create_appointment` has succeeded for a (teacher, date, time)
slot, any later `create_appointment` with the same teacher id, date string and
time string — after any sequence of further operations, for any existing
student and any lesson of that teacher — fails with SlotConflict and leaves the
store unchanged (no appointment is added). -/
theorem c1_slot_conflict (s : SystemState) (sid tid lid : Nat) (d t : String)
    (a : Appointment) (hb : teacherKeysBounded s)
    (hok : (create_appointment s sid tid lid d t).1 = .ok a) :
    ∀ (ops : List Op) (sid2 lid2 : Nat),
      hasStudent (applyOps ops (create_appointment s sid tid lid d t).2) sid2 = true →
      hasLesson (applyOps ops (create_appointment s sid tid lid d t).2) lid2 = true →
      lessonOwned (applyOps ops (create_appointment s sid tid lid d t).2) tid lid2 = true →
      create_appointment (applyOps ops (create_appointment s sid tid lid d t).2)
          sid2 tid lid2 d t =
        (.error .SlotConflict,
          applyOps ops (create_appointment s sid tid lid d t).2) := by
  rcases create_cases s sid tid lid d t with ⟨e, he⟩ | hS
  · rw [he] at hok
    cases hok
  obtain ⟨a', hok', hid, hpaid, hsid, hdate, htime, ⟨te, hte, huid, hown⟩, -, hvd, hvt,
    hnocc⟩ := hS
  intro ops sid2 lid2 h1 h2 h3
  have hb1 : teacherKeysBounded (create_appointment s sid tid lid d t).2 := by
    rw [hok']
    exact hb
  have hu1 : (alFind (create_appointment s sid tid lid d t).2.teachers tid).map
      (·.user_id) = some te.user_id := by
    rw [hok']
    show (alFind s.teachers tid).map (·.user_id) = some te.user_id
    rw [hte]
    rfl
  have hocc1 : slotKeyStr te.user_id d t ∈
      (create_appointment s sid tid lid d t).2.occupied_slots := by
    rw [hok']
    show slotKeyStr te.user_id d t ∈ addSlot s.occupied_slots a'.slot_key
    have hkey : a'.slot_key = slotKeyStr te.user_id d t := by
      rw [Appointment.slot_key, huid, hdate, htime]
    rw [← hkey]
    exact mem_addSlot_self ..
  obtain ⟨hb2, hu2⟩ :=
    uid_stable_ops ops (create_appointment s sid tid lid d t).2 tid te.user_id hb1 hu1
  have hocc2 : slotKeyStr te.user_id d t ∈
      (applyOps ops (create_appointment s sid tid lid d t).2).occupied_slots :=
    occ_mono_ops ops (create_appointment s sid tid lid d t).2 hocc1
  unfold hasStudent at h1
  unfold hasLesson at h2
  unfold lessonOwned at h3
  cases hst2 : alFind (applyOps ops (create_appointment s sid tid lid d t).2).students
      sid2 with
  | none => rw [hst2] at h1; cases h1
  | some st2 =>
  cases hle2 : alFind (applyOps ops (create_appointment s sid tid lid d t).2).lessons
      lid2 with
  | none => rw [hle2] at h2; cases h2
  | some le2 =>
  cases hte2 : alFind (applyOps ops (create_appointment s sid tid lid d t).2).teachers
      tid with
  | none => rw [hte2] at h3; cases h3
  | some te2 =>
  rw [hte2] at h3
  simp only [decide_eq_true_eq] at h3
  have huid2 : te2.user_id = te.user_id := by
    rw [hte2] at hu2
    simpa using hu2
  exact create_slot_conflict _ sid2 tid lid2 d t st2 te2 le2 hst2 hte2 hle2 h3 hvd hvt
    (by rw [huid2]; exact hocc2)

/-- Witness for C1: after booking the demo slot and then adding a second
student, booking the same teacher/date/time for the new student and the same
lesson fails with SlotConflict and leaves the store unchanged. -/
theorem c1_witness :
    create_appointment
        (applyOps [.addStudent "Banu" "5550002222" "Lise"]
          (create_appointment demoBase 1 1 1 "2025-03-10" "14:00").2)
        2 1 1 "2025-03-10" "14:00" =
      (.error .SlotConflict,
        applyOps [.addStudent "Banu" "5550002222" "Lise"]
          (create_appointment demoBase 1 1 1 "2025-03-10" "14:00").2) :=
  c1_slot_conflict demoBase 1 1 1 "2025-03-10" "14:00" demoApptBooked (by decide) (by decide)
    [.addStudent "Banu" "5550002222" "Lise"] 2 1 (by decide) (by decide) (by decide)

/-! ### Load-time lemmas -/

theorem loadAppointments_frame (rows : List AppointmentRow) (s : SystemState) :
    (loadAppointments rows s).students = s.students ∧
    (loadAppointments rows s).teachers = s.teachers ∧
    (loadAppointments rows s).lessons = s.lessons ∧
    (loadAppointments rows s).next_student_id = s.next_student_id ∧
    (loadAppointments rows s).next_teacher_id = s.next_teacher_id ∧
    (loadAppointments rows s).next_lesson_id = s.next_lesson_id ∧
    (loadAppointments rows s).next_appointment_id = s.next_appointment_id ∧
    (loadAppointments rows s).next_payment_id = s.next_payment_id := by
  induction rows generalizing s with
  | nil => exact ⟨rfl, rfl, rfl, rfl, rfl, rfl, rfl, rfl⟩
  | cons r rest ih =>
    unfold loadAppointments
    cases h1 : alFind s.students r.student_id with
    | none => exact ⟨rfl, rfl, rfl, rfl, rfl, rfl, rfl, rfl⟩
    | some x =>
      cases h2 : alFind s.teachers r.teacher_id with
      | none => exact ⟨rfl, rfl, rfl, rfl, rfl, rfl, rfl, rfl⟩
      | some te =>
        cases h3 : alFind s.lessons r.lesson_id with
        | none => exact ⟨rfl, rfl, rfl, rfl, rfl, rfl, rfl, rfl⟩
        | some le => exact ih _

theorem fold_students_frame (rows : List StudentRow) (s : SystemState) :
    rows.foldl (fun acc r => { acc with
      students := upsert acc.students r.id (studentOfRow r) }) s =
    { s with students := rows.foldl (fun m r => upsert m r.id (studentOfRow r)) s.students } := by
  induction rows generalizing s with
  | nil => rfl
  | cons r rest ih =>
    simp only [List.foldl_cons]
    rw [ih]

theorem fold_teachers_frame (rows : List TeacherRow) (s : SystemState) :
    rows.foldl (fun acc r => { acc with
      teachers := upsert acc.teachers r.id (teacherOfRow r) }) s =
    { s with teachers := rows.foldl (fun m r => upsert m r.id (teacherOfRow r)) s.teachers } := by
  induction rows generalizing s with
  | nil => rfl
  | cons r rest ih =>
    simp only [List.foldl_cons]
    rw [ih]

theorem fold_lessons_frame (rows : List LessonRow) (s : SystemState) :
    rows.foldl (fun acc r => { acc with
      lessons := upsert acc.lessons r.id (lessonOfRow r) }) s =
    { s with lessons := rows.foldl (fun m r => upsert m r.id (lessonOfRow r)) s.lessons } := by
  induction rows generalizing s with
  | nil => rfl
  | cons r rest ih =>
    simp only [List.foldl_cons]
    rw [ih]

theorem mem_keys_load_students (rows : List StudentRow) (m : List (Nat × Student)) (k : Nat) :
    k ∈ keys (rows.foldl (fun m r => upsert m r.id (studentOfRow r)) m) ↔
      k ∈ keys m ∨ k ∈ rows.map (·.id) := by
  induction rows generalizing m with
  | nil => simp
  | cons r rest ih =>
    simp only [List.foldl_cons, List.map_cons, List.mem_cons]
    rw [ih, mem_keys_upsert_iff]
    tauto

theorem mem_keys_load_teachers (rows : List TeacherRow) (m : List (Nat × Teacher)) (k : Nat) :
    k ∈ keys (rows.foldl (fun m r => upsert m r.id (teacherOfRow r)) m) ↔
      k ∈ keys m ∨ k ∈ rows.map (·.id) := by
  induction rows generalizing m with
  | nil => simp
  | cons r rest ih =>
    simp only [List.foldl_cons, List.map_cons, List.mem_cons]
    rw [ih, mem_keys_upsert_iff]
    tauto

theorem mem_keys_load_lessons (rows : List LessonRow) (m : List (Nat × Lesson)) (k : Nat) :
    k ∈ keys (rows.foldl (fun m r => upsert m r.id (lessonOfRow r)) m) ↔
      k ∈ keys m ∨ k ∈ rows.map (·.id) := by
  induction rows generalizing m with
  | nil => simp
  | cons r rest ih =>
    simp only [List.foldl_cons, List.map_cons, List.mem_cons]
    rw [ih, mem_keys_upsert_iff]
    tauto

theorem initSystem_parsed (sn : Snapshot) :
    initSystem (some (.parsed sn)) = loadAppointments sn.appointments
      { emptyState with
        db := some (.parsed sn),
        next_student_id := sn.next_ids.student,
        next_teacher_id := sn.next_ids.teacher,
        next_lesson_id := sn.next_ids.lesson,
        next_appointment_id := sn.next_ids.appointment,
        next_payment_id := sn.next_ids.payment,
        students := sn.students.foldl (fun m r => upsert m r.id (studentOfRow r)) [],
        teachers := sn.teachers.foldl (fun m r => upsert m r.id (teacherOfRow r)) [],
        lessons := sn.lessons.foldl (fun m r => upsert m r.id (lessonOfRow r)) [] } := by
  unfold initSystem load
  simp only []
  rw [fold_students_frame, fold_teachers_frame, fold_lessons_frame]
  rfl

/-! ### Claim C6: behaviour of load on missing, unparseable and bad snapshots -/

/-- C6 counterexample: the claim "a snapshot whose references do not check
leaves the store in the empty initial state" is false: loading `badSnap` (whose
single appointment row references missing student 99) yields a store whose
student map is nonempty and whose student id counter is 7, not 1. -/
theorem c6_counterexample :
    ¬ ((initSystem (some (.parsed badSnap))).students = [] ∧
       (initSystem (some (.parsed badSnap))).next_student_id = 1) ∧
    (initSystem (some (.parsed badSnap))).next_student_id = 7 ∧
    keys (initSystem (some (.parsed badSnap))).students = [1] ∧
    keys (initSystem (some (.parsed badSnap))).appointments = [] := by
  decide

/-- C6 amended: load() never raises; with no snapshot, or with one that fails
to parse, the store keeps the empty initial state (empty maps and slot index,
all counters 1); but when a parsed snapshot fails reference-checking in the
appointments loop, the store is not reset to empty: the counters and the
student, teacher and lesson collections still reflect the snapshot. -/
theorem c6_load_fallback :
    ((initSystem none).students = [] ∧ (initSystem none).teachers = [] ∧
     (initSystem none).lessons = [] ∧ (initSystem none).appointments = [] ∧
     (initSystem none).payments = [] ∧ (initSystem none).occupied_slots = [] ∧
     (initSystem none).next_student_id = 1 ∧ (initSystem none).next_teacher_id = 1 ∧
     (initSystem none).next_lesson_id = 1 ∧ (initSystem none).next_appointment_id = 1 ∧
     (initSystem none).next_payment_id = 1) ∧
    ((initSystem (some .malformed)).students = [] ∧
     (initSystem (some .malformed)).teachers = [] ∧
     (initSystem (some .malformed)).lessons = [] ∧
     (initSystem (some .malformed)).appointments = [] ∧
     (initSystem (some .malformed)).payments = [] ∧
     (initSystem (some .malformed)).occupied_slots = [] ∧
     (initSystem (some .malformed)).next_student_id = 1 ∧
     (initSystem (some .malformed)).next_teacher_id = 1 ∧
     (initSystem (some .malformed)).next_lesson_id = 1 ∧
     (initSystem (some .malformed)).next_appointment_id = 1 ∧
     (initSystem (some .malformed)).next_payment_id = 1) ∧
    ∀ sn : Snapshot,
      (initSystem (some (.parsed sn))).next_student_id = sn.next_ids.student ∧
      (initSystem (some (.parsed sn))).next_teacher_id = sn.next_ids.teacher ∧
      (initSystem (some (.parsed sn))).next_lesson_id = sn.next_ids.lesson ∧
      (initSystem (some (.parsed sn))).next_appointment_id = sn.next_ids.appointment ∧
      (initSystem (some (.parsed sn))).next_payment_id = sn.next_ids.payment ∧
      (∀ k, k ∈ keys (initSystem (some (.parsed sn))).students ↔
        k ∈ sn.students.map (·.id)) ∧
      (∀ k, k ∈ keys (initSystem (some (.parsed sn))).teachers ↔
        k ∈ sn.teachers.map (·.id)) ∧
      (∀ k, k ∈ keys (initSystem (some (.parsed sn))).lessons ↔
        k ∈ sn.lessons.map (·.id)) := by
  refine ⟨⟨rfl, rfl, rfl, rfl, rfl, rfl, rfl, rfl, rfl, rfl, rfl⟩,
          ⟨rfl, rfl, rfl, rfl, rfl, rfl, rfl, rfl, rfl, rfl, rfl⟩, ?_⟩
  intro sn
  rw [initSystem_parsed]
  obtain ⟨f1, f2, f3, f4, f5, f6, f7, f8⟩ := loadAppointments_frame sn.appointments _
  refine ⟨by rw [f4], by rw [f5], by rw [f6], by rw [f7], by rw [f8], ?_, ?_, ?_⟩
  · intro k
    rw [f1]
    show k ∈ keys (sn.students.foldl (fun m r => upsert m r.id (studentOfRow r)) []) ↔ _
    rw [mem_keys_load_students]
    simp
  · intro k
    rw [f2]
    show k ∈ keys (sn.teachers.foldl (fun m r => upsert m r.id (teacherOfRow r)) []) ↔ _
    rw [mem_keys_load_teachers]
    simp
  · intro k
    rw [f3]
    show k ∈ keys (sn.lessons.foldl (fun m r => upsert m r.id (lessonOfRow r)) []) ↔ _
    rw [mem_keys_load_lessons]
    simp

/-! ### Claim C2: save/load round trip -/

/-- C2 exhibit: saving the paid demo store and loading it into a fresh store
reproduces the student/teacher/lesson/appointment id sets, the slot occupancy
(rebooking the same slot still fails with SlotConflict), an empty payments
collection and placeholder phones — but the reloaded appointment's paid flag is
false although it was true when saved: `load` never reads the serialised
`paid` field, contradicting the round-trip claim. -/
theorem c2_roundtrip_paid_lost :
    keys (initSystem demoPaid.db).students = keys demoPaid.students ∧
    keys (initSystem demoPaid.db).teachers = keys demoPaid.teachers ∧
    keys (initSystem demoPaid.db).lessons = keys demoPaid.lessons ∧
    keys (initSystem demoPaid.db).appointments = keys demoPaid.appointments ∧
    (initSystem demoPaid.db).occupied_slots = demoPaid.occupied_slots ∧
    (create_appointment (initSystem demoPaid.db) 1 1 1 "2025-03-10" "14:00").1 =
      .error .SlotConflict ∧
    (initSystem demoPaid.db).payments = [] ∧
    (initSystem demoPaid.db).students.map (fun p => p.2.phone) = ["0000"] ∧
    (alFind demoPaid.appointments 1).map (·.is_paid) = some true ∧
    (alFind (initSystem demoPaid.db).appointments 1).map (·.is_paid) = some false := by
  decide
